import Mathlib

/-!
Verification of the manual image-fusion engine of OnkoDICOM
(`src/Model/VTKEngine.py`).

The development shallowly embeds the numerically relevant parts of
`VTKEngine.py` over exact rational arithmetic:

* pixel windowing (`vtk_to_np_slice`, lines 246-251),
* the colored crossfade blend (`get_slice_qimage`, lines 315-320),
* slice extraction with index clamping (`vtk_to_np_slice`, lines 234-244,
  and `get_slice_numpy`, lines 214-255),
* DICOM voxel-to-world matrices and the pre-registration transform
  (`get_first_slice_ipp`, `compute_dicom_matrix`, `load_moving`),
* the user/composed transform state machine (`set_translation`,
  `set_rotation_deg`, `reset_transform`, `_apply_transform`),
* directory-listing based load guards (`load_fixed`, `load_moving`).

Representation choices:
* NumPy/VTK float arithmetic is modelled over `ℚ`; the float-to-uint8 cast
  on values in `[0, 255]` is `Int.floor` followed by `Int.toNat`.
* Every 4x4 matrix the engine manipulates has last row `(0,0,0,1)` (they are
  built either by `np.eye(4)` updates of the upper 3x4 block or by
  `vtkTransform` translate/rotate/concatenate calls), so homogeneous 4x4
  matrices are represented as the pair `Aff` of their rotation block `R` and
  translation column `t`; homogeneous matrix product is `Aff.comp`.
* `np.linalg.norm` (a real square root) and the degree trigonometric
  functions used by `vtkTransform.RotateX/Y/Z` are irrational, so they enter
  as function parameters (`norm3`, `cosd`, `sind`); theorems that need a
  property of them (for example `cosd 0 = 1`) take it as a hypothesis.
* A DICOM directory is modelled by its enumeration: a list of entries, each
  a name together with an is-file flag; the `ImagePositionPatient` that
  `pydicom.dcmread` would report for a file name is a function parameter.
-/

namespace OnkoDicom

abbrev Vec3 := Fin 3 → ℚ

abbrev Mat3 := Matrix (Fin 3) (Fin 3) ℚ

/-- A homogeneous 4x4 matrix with last row (0,0,0,1): rotation/scale block
`R` and translation column `t`. -/
structure Aff where
  R : Mat3
  t : Vec3

/-- Product of homogeneous matrices: `(A.comp B)` is the matrix `A * B`. -/
def Aff.comp (A B : Aff) : Aff := ⟨A.R * B.R, A.R.mulVec B.t + A.t⟩

/-- The identity matrix `np.eye(4)` / `vtkTransform.Identity()`. -/
def Aff.id : Aff := ⟨1, 0⟩

/-- Pure translation matrix, `vtkTransform.Translate(v)`. -/
def translateA (v : Vec3) : Aff := ⟨1, v⟩

/-- Rotation block of `vtkTransform.RotateX(θ)`, with `c = cos θ`, `s = sin θ`. -/
def rotXmat (c s : ℚ) : Mat3 := !![1, 0, 0; 0, c, -s; 0, s, c]

/-- Rotation block of `vtkTransform.RotateY(θ)`. -/
def rotYmat (c s : ℚ) : Mat3 := !![c, 0, s; 0, 1, 0; -s, 0, c]

/-- Rotation block of `vtkTransform.RotateZ(θ)`. -/
def rotZmat (c s : ℚ) : Mat3 := !![c, -s, 0; s, c, 0; 0, 0, 1]

/-- Homogeneous `RotateX` matrix. -/
def rotX (c s : ℚ) : Aff := ⟨rotXmat c s, 0⟩

/-- Homogeneous `RotateY` matrix. -/
def rotY (c s : ℚ) : Aff := ⟨rotYmat c s, 0⟩

/-- Homogeneous `RotateZ` matrix. -/
def rotZ (c s : ℚ) : Aff := ⟨rotZmat c s, 0⟩

/-- A `vtkTransform` in PostMultiply mode: each new operation `m` sets the
current matrix `a` to `m * a`. -/
def vtkPost (m a : Aff) : Aff := m.comp a

/-! ### Windowing (`vtk_to_np_slice`, VTKEngine.py lines 246-251) -/

/-- `np.clip(x, 0, 1)`. -/
def npClip01 (x : ℚ) : ℚ := max 0 (min 1 x)

/-- Line 249: `np.clip((arr2d - (c - 0.5)) / (w - 1) + 0.5, 0, 1)`. -/
def windowNorm (c w v : ℚ) : ℚ := npClip01 ((v - (c - 1/2)) / (w - 1) + 1/2)

/-- Line 250: `(arr2d * 255.0).astype(np.uint8)`; the cast truncates, and the
operand lies in `[0, 255]`, so it is the floor. -/
def windowByte (c w v : ℚ) : ℕ := (Int.floor (windowNorm c w v * 255)).toNat

/-! ### Colored crossfade blend (`get_slice_qimage`, lines 315-320) -/

/-- Fixed-volume brightness multiplier:
`fixed_opacity = 1.0 if blend <= 0.5 else 2.0 * (1.0 - blend)`. -/
def crossfadeFixed (blend : ℚ) : ℚ := if blend ≤ 1/2 then 1 else 2 * (1 - blend)

/-- Moving-volume brightness multiplier:
`moving_opacity = blend * 2.0 if blend <= 0.5 else 1.0`. -/
def crossfadeMoving (blend : ℚ) : ℚ := if blend ≤ 1/2 then 2 * blend else 1

/-! ### VTK image data -/

/-- The data `vtkImageData` exposes to the engine: origin, spacing, optional
direction matrix (`GetDirectionMatrix`), per-axis extent `(min, max)` with
axis order x, y, z, and the scalar voxel array, indexed by offsets
`(z, y, x)` from the extent minima exactly like the reshaped
`arr[nz, ny, nx]` of line 232. -/
structure VtkImageData where
  origin : Vec3
  spacing : Vec3
  direction : Option Mat3
  extent : Fin 3 → ℤ × ℤ
  scalar : ℤ → ℤ → ℤ → ℚ

/-- Line 226: `nx = extent[1] - extent[0] + 1`. -/
def sizeX (img : VtkImageData) : ℤ := (img.extent 0).2 - (img.extent 0).1 + 1

/-- Line 227: `ny = extent[3] - extent[2] + 1`. -/
def sizeY (img : VtkImageData) : ℤ := (img.extent 1).2 - (img.extent 1).1 + 1

/-- Line 228: `nz = extent[5] - extent[4] + 1`. -/
def sizeZ (img : VtkImageData) : ℤ := (img.extent 2).2 - (img.extent 2).1 + 1

/-- The flat scalar list of an image (`numpy_support.vtk_to_numpy(...)`),
in `(z, y, x)`-major order. -/
def scalarList (img : VtkImageData) : List ℚ :=
  (List.range (sizeZ img).toNat).flatMap fun k =>
    (List.range (sizeY img).toNat).flatMap fun j =>
      (List.range (sizeX img).toNat).map fun i =>
        img.scalar (k : ℤ) (j : ℤ) (i : ℤ)

/-- `vtkImageFlip` with `SetFilteredAxis(1)` (lines 101-104, 135-138):
reverses the y axis of the voxel array. -/
def imageFlipY (img : VtkImageData) : VtkImageData :=
  { img with scalar := fun z y x => img.scalar z (sizeY img - 1 - y) x }

/-! ### Orientation constants and slice extraction -/

def ORI_AXIAL : String := "axial"

def ORI_CORONAL : String := "coronal"

def ORI_SAGITTAL : String := "sagittal"

/-- `np.clip(v, lo, hi)` on integers (maximum first, then minimum). -/
def npClipInt (v lo hi : ℤ) : ℤ := min hi (max lo v)

/-- Clamping an absolute index into the inclusive range `[lo, hi]`, as the
spec words it. -/
def clampInt (idx lo hi : ℤ) : ℤ := max lo (min hi idx)

/-- `vtk_to_np_slice` (lines 222-251): select the clamped 2D plane for the
requested orientation and window it to 8-bit. The returned plane maps the
in-plane array offsets to the windowed byte. Unknown orientation strings
return `None` (line 244). The window arguments default to
`window_center=40, window_width=400` exactly as in the Python signature. -/
def vtk_to_np_slice (img : Option VtkImageData) (orientation : String)
    (slice_idx : ℤ) (window_center : ℚ := 40) (window_width : ℚ := 400) :
    Option (ℕ → ℕ → ℕ) :=
  match img with
  | none => none
  | some im =>
    if orientation = ORI_AXIAL then
      let z := npClipInt (slice_idx - (im.extent 2).1) 0 (sizeZ im - 1)
      some fun i j => windowByte window_center window_width (im.scalar z (i : ℤ) (j : ℤ))
    else if orientation = ORI_CORONAL then
      let y := npClipInt (slice_idx - (im.extent 1).1) 0 (sizeY im - 1)
      some fun i j => windowByte window_center window_width (im.scalar (i : ℤ) y (j : ℤ))
    else if orientation = ORI_SAGITTAL then
      let x := npClipInt (slice_idx - (im.extent 0).1) 0 (sizeX im - 1)
      some fun i j => windowByte window_center window_width (im.scalar (i : ℤ) (j : ℤ) x)
    else none

/-- The windowed plane of an image at the absolute slice index `k` of the
given orientation (no clamping): the reference plane that
`vtk_to_np_slice` is shown to produce at the clamped index. -/
def sliceAt (im : VtkImageData) (orientation : String) (k : ℤ)
    (window_center window_width : ℚ) : Option (ℕ → ℕ → ℕ) :=
  if orientation = ORI_AXIAL then
    some fun i j => windowByte window_center window_width
      (im.scalar (k - (im.extent 2).1) (i : ℤ) (j : ℤ))
  else if orientation = ORI_CORONAL then
    some fun i j => windowByte window_center window_width
      (im.scalar (i : ℤ) (k - (im.extent 1).1) (j : ℤ))
  else if orientation = ORI_SAGITTAL then
    some fun i j => windowByte window_center window_width
      (im.scalar (i : ℤ) (j : ℤ) (k - (im.extent 0).1))
  else none

/-- The valid minimum absolute index of the axis a given orientation slices. -/
def axisLo (im : VtkImageData) (orientation : String) : ℤ :=
  if orientation = ORI_AXIAL then (im.extent 2).1
  else if orientation = ORI_CORONAL then (im.extent 1).1
  else (im.extent 0).1

/-- The valid maximum absolute index of the axis a given orientation slices. -/
def axisHi (im : VtkImageData) (orientation : String) : ℤ :=
  if orientation = ORI_AXIAL then (im.extent 2).2
  else if orientation = ORI_CORONAL then (im.extent 1).2
  else (im.extent 0).2

/-! ### Directory model and DICOM utilities -/

/-- One entry of a directory enumeration. -/
structure DirEntry where
  name : String
  isFile : Bool

/-- A directory as the engine observes it: the list of its entries
(`Path(dicom_dir).glob("*")` / `os.listdir(folder)`). -/
structure DirListing where
  entries : List DirEntry

/-- `any(f.is_file() for f in files)` (lines 94, 127). -/
def hasAnyFile (d : DirListing) : Bool := d.entries.any fun e => e.isFile

/-- ASCII lower-casing of one character, as `str.lower()` acts on file
names. -/
def pyLowerChar (c : Char) : Char :=
  if 'A' ≤ c ∧ c ≤ 'Z' then Char.ofNat (c.toNat + 32) else c

/-- `f.lower().endswith(".dcm")` (line 15). -/
def endsWithDcm (s : String) : Bool :=
  List.isSuffixOf ['.', 'd', 'c', 'm'] (s.data.map pyLowerChar)

/-- Line 15: the sorted list of `.dcm` entry names of the folder. Sorting the
names agrees with sorting the joined paths, since all share the folder
prefix. -/
def dcmNames (d : DirListing) : List String :=
  ((d.entries.map fun e => e.name).filter fun n => endsWithDcm n).mergeSort
    fun a b => a ≤ b

/-- `get_first_slice_ipp` (lines 12-19): the `ImagePositionPatient` of the
first `.dcm` file of the folder, or `(0,0,0)` when there is none. `ipp`
models what `pydicom.dcmread(file).ImagePositionPatient` reports for a
name. -/
def get_first_slice_ipp (d : DirListing) (ipp : String → Vec3) : Vec3 :=
  match dcmNames d with
  | [] => 0
  | f :: _ => ipp f

/-- `compute_dicom_matrix` (lines 21-43): columns 0-2 are the direction
columns scaled by spacing, column 3 the (possibly overridden) origin;
a missing direction matrix falls back to the identity. -/
def compute_dicom_matrix (img : VtkImageData) (origin_override : Option Vec3) :
    Aff :=
  let origin : Vec3 :=
    match origin_override with
    | some o => o
    | none => img.origin
  let direction : Mat3 :=
    match img.direction with
    | some dm => dm
    | none => 1
  ⟨fun i j => direction i j * img.spacing j, origin⟩

/-- Per-column division of a 3x3 block by the column norms (lines 150-151);
`norm3` stands for `np.linalg.norm` on a column. -/
def columnNormalize (norm3 : Vec3 → ℚ) (A : Mat3) : Mat3 :=
  fun i j => A i j / norm3 (fun k => A k j)

/-- Lines 146-161 of `load_moving`: rotation `R_fixed^T * R_moving` of the
column-normalized blocks, translation `moving origin - fixed origin`. -/
def preRegTransform (norm3 : Vec3 → ℚ) (fixedM movingM : Aff) : Aff :=
  ⟨(columnNormalize norm3 fixedM.R).transpose * columnNormalize norm3 movingM.R,
    movingM.t - fixedM.t⟩

/-! ### Engine state -/

/-- The mutable state of `VTKEngine` (constructor lines 52-89), restricted to
the fields the verified behavior touches. `resliceOutput` stands for the
current `reslice3d.GetOutput()` voxel grid. -/
structure EngineState where
  fixed_reader : Option VtkImageData
  moving_reader : Option VtkImageData
  blend_dirty : Bool
  tx : ℚ
  ty : ℚ
  tz : ℚ
  rx : ℚ
  ry : ℚ
  rz : ℚ
  transform : Aff
  backgroundLevel : ℚ
  resliceAxes : Aff
  resliceOutput : Option VtkImageData
  resliceOutSpacing : Option Vec3
  resliceOutOrigin : Option Vec3
  resliceOutExtent : Option (Fin 3 → ℤ × ℤ)
  interpolationLinear : Bool
  blendOpacityFixed : ℚ
  blendOpacityMoving : ℚ
  blendInputCount : ℕ
  pre_transform : Aff
  fixed_matrix : Aff
  moving_matrix : Aff
  user_transform : Aff

/-- The state built by `VTKEngine.__init__`. -/
def initState : EngineState where
  fixed_reader := none
  moving_reader := none
  blend_dirty := true
  tx := 0
  ty := 0
  tz := 0
  rx := 0
  ry := 0
  rz := 0
  transform := Aff.id
  backgroundLevel := 0
  resliceAxes := Aff.id
  resliceOutput := none
  resliceOutSpacing := none
  resliceOutOrigin := none
  resliceOutExtent := none
  interpolationLinear := true
  blendOpacityFixed := 1
  blendOpacityMoving := 1/2
  blendInputCount := 0
  pre_transform := Aff.id
  fixed_matrix := Aff.id
  moving_matrix := Aff.id
  user_transform := Aff.id

/-- `_wire_blend` (lines 386-392): reconnect the blend inputs and mark the
blend dirty. -/
def wireBlend (st : EngineState) : EngineState :=
  { st with
    blendInputCount :=
      (if st.fixed_reader.isSome then 1 else 0) +
      (if st.moving_reader.isSome then 1 else 0)
    blend_dirty := true }

/-- `_sync_reslice_output_to_fixed` (lines 394-401). -/
def syncResliceOutputToFixed (st : EngineState) : EngineState :=
  match st.fixed_reader with
  | none => st
  | some f =>
    { st with
      resliceOutSpacing := some f.spacing
      resliceOutOrigin := some f.origin
      resliceOutExtent := some f.extent }

/-- `load_fixed` (lines 92-121). `rimg` is the volume
`vtkDICOMImageReader` decodes for this directory, `ipp` the per-file
`ImagePositionPatient`. -/
def load_fixed (ipp : String → Vec3) (d : DirListing) (rimg : VtkImageData)
    (st : EngineState) : Bool × EngineState :=
  if hasAnyFile d = false then (false, st)
  else
    let flip := imageFlipY rimg
    let origin := get_first_slice_ipp d ipp
    let fixedM := compute_dicom_matrix rimg (some origin)
    let st1 := { st with fixed_reader := some flip, fixed_matrix := fixedM }
    let st2 :=
      match (scalarList flip).min? with
      | some m => { st1 with backgroundLevel := m }
      | none => st1
    (true, syncResliceOutputToFixed (wireBlend st2))

/-- `load_moving` (lines 125-183). `resliceOut` is the voxel grid the
reslice filter produces once its input and axes are set. -/
def load_moving (norm3 : Vec3 → ℚ) (ipp : String → Vec3) (d : DirListing)
    (rimg : VtkImageData) (resliceOut : Option VtkImageData)
    (st : EngineState) : Bool × EngineState :=
  if hasAnyFile d = false then (false, st)
  else
    let flip := imageFlipY rimg
    let movingM := compute_dicom_matrix rimg (some (get_first_slice_ipp d ipp))
    let pre := preRegTransform norm3 st.fixed_matrix movingM
    let st1 :=
      { st with
        moving_reader := some flip
        moving_matrix := movingM
        pre_transform := pre
        resliceAxes := pre
        resliceOutput := resliceOut }
    (true, wireBlend (syncResliceOutputToFixed st1))

/-! ### Transform state machine -/

/-- Lines 345-350: physical center of the fixed volume, from its extent,
spacing and origin. -/
def centerWorld (img : VtkImageData) : Vec3 :=
  fun i =>
    img.origin i +
      (((img.extent i).1 + (img.extent i).2 : ℤ) : ℚ) / 2 * img.spacing i

/-- Lines 352-360: the user transform built in PostMultiply order
`Translate(-center); RotateX; RotateY; RotateZ; Translate(center);
Translate(tx,ty,tz)`. -/
def userTransformOf (cosd sind : ℚ → ℚ) (st : EngineState) (center : Vec3) :
    Aff :=
  let u1 := vtkPost (translateA (-center)) Aff.id
  let u2 := vtkPost (rotX (cosd st.rx) (sind st.rx)) u1
  let u3 := vtkPost (rotY (cosd st.ry) (sind st.ry)) u2
  let u4 := vtkPost (rotZ (cosd st.rz) (sind st.rz)) u3
  let u5 := vtkPost (translateA center) u4
  vtkPost (translateA ![st.tx, st.ty, st.tz]) u5

/-- `_apply_transform` (lines 336-379): no-op unless both volumes are
loaded; otherwise rebuild the user transform, concatenate the
pre-registration transform then the user transform (PostMultiply), push the
result into the reslice axes and mark the blend dirty. -/
def applyTransform (cosd sind : ℚ → ℚ) (st : EngineState) : EngineState :=
  match st.fixed_reader, st.moving_reader with
  | some fimg, some _ =>
    let center := centerWorld fimg
    let user_t := userTransformOf cosd sind st center
    let final_t := vtkPost user_t (vtkPost st.pre_transform Aff.id)
    { st with
      user_transform := user_t
      transform := final_t
      resliceAxes := final_t
      blend_dirty := true }
  | _, _ => st

/-- `set_translation` (lines 188-190). -/
def set_translation (cosd sind : ℚ → ℚ) (a b c : ℚ) (st : EngineState) :
    EngineState :=
  applyTransform cosd sind { st with tx := a, ty := b, tz := c }

/-- `set_rotation_deg` (lines 192-194); the orientation/slice hints are
unused by the transform logic. -/
def set_rotation_deg (cosd sind : ℚ → ℚ) (a b c : ℚ) (st : EngineState) :
    EngineState :=
  applyTransform cosd sind { st with rx := a, ry := b, rz := c }

/-- `reset_transform` (lines 196-201). -/
def reset_transform (cosd sind : ℚ → ℚ) (st : EngineState) : EngineState :=
  applyTransform cosd sind
    { st with
      tx := 0, ty := 0, tz := 0, rx := 0, ry := 0, rz := 0
      transform := Aff.id
      blend_dirty := true }

/-- `set_opacity` (lines 203-205). -/
def set_opacity (alpha : ℚ) (st : EngineState) : EngineState :=
  { st with blendOpacityMoving := npClip01 alpha, blend_dirty := true }

/-- One user mutation of the transform parameters. -/
inductive UserOp where
  | setT (a b c : ℚ)
  | setR (a b c : ℚ)

/-- Run one user mutation on the engine. -/
def runOp (cosd sind : ℚ → ℚ) (st : EngineState) (op : UserOp) : EngineState :=
  match op with
  | .setT a b c => set_translation cosd sind a b c st
  | .setR a b c => set_rotation_deg cosd sind a b c st

/-- Run a sequence of user mutations on the engine. -/
def runOps (cosd sind : ℚ → ℚ) (st : EngineState) (ops : List UserOp) :
    EngineState :=
  ops.foldl (runOp cosd sind) st

/-- The six user transform parameters. -/
structure UserParams where
  prx : ℚ
  pry : ℚ
  prz : ℚ
  ptx : ℚ
  pty : ℚ
  ptz : ℚ

/-- The parameters currently stored in the engine. -/
def paramsOf (st : EngineState) : UserParams :=
  ⟨st.rx, st.ry, st.rz, st.tx, st.ty, st.tz⟩

/-- How one user mutation updates the stored parameters. -/
def opStep (p : UserParams) (op : UserOp) : UserParams :=
  match op with
  | .setT a b c => { p with ptx := a, pty := b, ptz := c }
  | .setR a b c => { p with prx := a, pry := b, prz := c }

/-- The stored parameters after a sequence of user mutations. -/
def finalParams (p : UserParams) (ops : List UserOp) : UserParams :=
  ops.foldl opStep p

/-- The transform the spec prescribes for the user adjustment: the
composition (in application order) translate by `-center`, rotate X, rotate
Y, rotate Z, translate by `center`, translate by `(tx,ty,tz)`; written as
the homogeneous matrix product. -/
def specUserMatrix (cosd sind : ℚ → ℚ) (p : UserParams) (center : Vec3) : Aff :=
  (((((translateA ![p.ptx, p.pty, p.ptz]).comp (translateA center)).comp
    (rotZ (cosd p.prz) (sind p.prz))).comp
    (rotY (cosd p.pry) (sind p.pry))).comp
    (rotX (cosd p.prx) (sind p.prx))).comp
    (translateA (-center))

/-! ### Slice extraction entry point -/

/-- `get_slice_numpy` (lines 214-255): none before a fixed volume is loaded;
otherwise the windowed fixed plane and, when a moving volume is loaded, the
windowed plane of the current reslice output. Both inner calls leave the
window arguments of `vtk_to_np_slice` at their defaults, exactly as lines
253-254 do. -/
def get_slice_numpy (st : EngineState) (orientation : String) (slice_idx : ℤ) :
    Option (ℕ → ℕ → ℕ) × Option (ℕ → ℕ → ℕ) :=
  match st.fixed_reader with
  | none => (none, none)
  | some fimg =>
    let moving_img : Option VtkImageData :=
      if st.moving_reader.isSome then st.resliceOutput else none
    let fixed_slice := vtk_to_np_slice (some fimg) orientation slice_idx
    let moving_slice :=
      match moving_img with
      | some m => vtk_to_np_slice (some m) orientation slice_idx
      | none => none
    (fixed_slice, moving_slice)

/-! ### Concrete data for witnesses -/

/-- Degenerate cosine table: valid at angle 0 only, where hypotheses use it. -/
def cosd0 : ℚ → ℚ := fun _ => 1

/-- Degenerate sine table: valid at angle 0 only, where hypotheses use it. -/
def sind0 : ℚ → ℚ := fun _ => 0

/-- A 2x2x2 all-zero volume with identity direction. -/
def demoImg : VtkImageData where
  origin := 0
  spacing := fun _ => 1
  direction := some 1
  extent := fun _ => (0, 1)
  scalar := fun _ _ _ => 0

/-- A single-voxel volume of raw value 500. -/
def demoImg500 : VtkImageData where
  origin := 0
  spacing := fun _ => 1
  direction := some 1
  extent := fun _ => (0, 0)
  scalar := fun _ _ _ => 500

/-- An engine with both volumes loaded and a non-trivial pre-registration
transform. -/
def demoBoth : EngineState :=
  { initState with
    fixed_reader := some demoImg
    moving_reader := some demoImg
    pre_transform := translateA ![1, 2, 3] }

/-- An engine with only the fixed volume loaded and a clean blend flag. -/
def demoFixedOnly : EngineState :=
  { initState with
    fixed_reader := some demoImg
    blend_dirty := false }

/-- An engine whose fixed volume is the single voxel of value 500. -/
def demoFixed500 : EngineState :=
  { initState with fixed_reader := some demoImg500 }

/-- A directory whose only entry is a subdirectory: no files at all. -/
def demoEmptyDir : DirListing := ⟨[⟨"nested", false⟩]⟩

/-- A directory with one regular file, not named `*.dcm`. -/
def demoDirNoDcm : DirListing := ⟨[⟨"notes.txt", true⟩]⟩

/-- An `ImagePositionPatient` table that is non-zero everywhere, to show the
zero origin fallback really comes from the `.dcm` filter. -/
def demoIpp : String → Vec3 := fun _ => ![5, 6, 7]

/-! ### Helper lemmas -/

theorem Aff.ext2 {A B : Aff} (hR : A.R = B.R) (ht : A.t = B.t) : A = B := by
  cases A; cases B; simp_all

theorem Aff.comp_assoc (A B C : Aff) : (A.comp B).comp C = A.comp (B.comp C) := by
  apply Aff.ext2 <;>
    simp [Aff.comp, Matrix.mul_assoc, Matrix.mulVec_add, Matrix.mulVec_mulVec,
      add_assoc]

theorem Aff.id_comp (A : Aff) : Aff.id.comp A = A := by
  apply Aff.ext2 <;> simp [Aff.comp, Aff.id, Matrix.one_mulVec]

theorem Aff.comp_id (A : Aff) : A.comp Aff.id = A := by
  apply Aff.ext2 <;> simp [Aff.comp, Aff.id, Matrix.mulVec_zero]

theorem translateA_comp (v w : Vec3) :
    (translateA v).comp (translateA w) = translateA (v + w) := by
  apply Aff.ext2 <;> simp [Aff.comp, translateA, Matrix.one_mulVec, add_comm]

theorem translateA_zero : translateA 0 = Aff.id := rfl

theorem rotXmat_id : rotXmat 1 0 = 1 := by
  ext i j
  fin_cases i <;> fin_cases j <;>
    simp [rotXmat, Matrix.one_apply, Matrix.vecHead, Matrix.vecTail]

theorem rotYmat_id : rotYmat 1 0 = 1 := by
  ext i j
  fin_cases i <;> fin_cases j <;>
    simp [rotYmat, Matrix.one_apply, Matrix.vecHead, Matrix.vecTail]

theorem rotZmat_id : rotZmat 1 0 = 1 := by
  ext i j
  fin_cases i <;> fin_cases j <;>
    simp [rotZmat, Matrix.one_apply, Matrix.vecHead, Matrix.vecTail]

theorem rotX_id : rotX 1 0 = Aff.id := by
  apply Aff.ext2
  · exact rotXmat_id
  · rfl

theorem rotY_id : rotY 1 0 = Aff.id := by
  apply Aff.ext2
  · exact rotYmat_id
  · rfl

theorem rotZ_id : rotZ 1 0 = Aff.id := by
  apply Aff.ext2
  · exact rotZmat_id
  · rfl

theorem windowByte_of_low {c w v : ℚ} (hw : 1 < w) (hv : v ≤ c - w / 2) :
    windowByte c w v = 0 := by
  have hw' : (0 : ℚ) < w - 1 := by linarith
  have hnum : v - (c - 1/2) ≤ -((w - 1) / 2) := by linarith
  have hdiv : (v - (c - 1/2)) / (w - 1) ≤ -((w - 1) / 2) / (w - 1) :=
    (div_le_div_iff_of_pos_right hw').mpr hnum
  have hval : -((w - 1) / 2) / (w - 1) = -(1/2) := by
    field_simp
    ring
  have hinner : (v - (c - 1/2)) / (w - 1) + 1/2 ≤ 0 := by
    rw [hval] at hdiv
    linarith
  have hnorm : windowNorm c w v = 0 := by
    rw [windowNorm, npClip01, min_eq_right (by linarith), max_eq_left (by linarith)]
  rw [windowByte, hnorm]
  simp

theorem windowByte_of_high {c w v : ℚ} (hw : 1 < w) (hv : c + w / 2 ≤ v) :
    windowByte c w v = 255 := by
  have hw' : (0 : ℚ) < w - 1 := by linarith
  have hnum : (w - 1) / 2 ≤ v - (c - 1/2) := by linarith
  have hdiv : (w - 1) / 2 / (w - 1) ≤ (v - (c - 1/2)) / (w - 1) :=
    (div_le_div_iff_of_pos_right hw').mpr hnum
  have hval : (w - 1) / 2 / (w - 1) = 1/2 := by
    field_simp
    ring
  have hinner : 1 ≤ (v - (c - 1/2)) / (w - 1) + 1/2 := by
    rw [hval] at hdiv
    linarith
  have hnorm : windowNorm c w v = 1 := by
    rw [windowNorm, npClip01, min_eq_left hinner, max_eq_right (by norm_num)]
  rw [windowByte, hnorm]
  simp

theorem windowByte_at_center {c w : ℚ} (hw : 87 ≤ w) :
    127 ≤ windowByte c w c ∧ windowByte c w c ≤ 128 := by
  have hw' : (0 : ℚ) < w - 1 := by linarith
  have hx : (c - (c - 1/2)) / (w - 1) = (1/2) / (w - 1) := by ring_nf
  have hpos : 0 < (1/2) / (w - 1) := by positivity
  have hsmall : (1/2) / (w - 1) ≤ (1/2) / 86 := by
    apply div_le_div_of_nonneg_left (by norm_num) (by norm_num) (by linarith)
  have hnorm : windowNorm c w c = (1/2) / (w - 1) + 1/2 := by
    rw [windowNorm, npClip01, hx, min_eq_right (by linarith), max_eq_right (by linarith)]
  have hlo : (127 : ℚ) ≤ windowNorm c w c * 255 := by
    rw [hnorm]
    nlinarith
  have hhi : windowNorm c w c * 255 < 129 := by
    rw [hnorm]
    nlinarith
  have h1 : (127 : ℤ) ≤ ⌊windowNorm c w c * 255⌋ := Int.le_floor.mpr (by exact_mod_cast hlo)
  have h2 : ⌊windowNorm c w c * 255⌋ < 129 := Int.floor_lt.mpr (by exact_mod_cast hhi)
  rw [windowByte]
  omega

/-! ### Claims -/

/-- C1: for window center `C` and width `W > 1`, the windowing step
`clip((v - (C - 0.5)) / (W - 1) + 0.5, 0, 1) * 255` sends every
`v ≤ C - W/2` to 0 and every `v ≥ C + W/2` to 255; the center value `v = C`
lands in 127-128 for every `W ≥ 87` (for smaller widths it lands higher,
see the counterexample). -/
theorem C1_windowing (c w v : ℚ) (hw : 1 < w) :
    (v ≤ c - w / 2 → windowByte c w v = 0) ∧
    (c + w / 2 ≤ v → windowByte c w v = 255) ∧
    (87 ≤ w → 127 ≤ windowByte c w c ∧ windowByte c w c ≤ 128) :=
  ⟨fun hv => windowByte_of_low hw hv,
   fun hv => windowByte_of_high hw hv,
   fun hw87 => windowByte_at_center hw87⟩

/-- C1 witness: at `C = 40, W = 400`, the raw value `-160 = C - W/2` maps
to 0. -/
theorem C1_windowing_witness : windowByte 40 400 (-160) = 0 :=
  (C1_windowing 40 400 (-160) (by norm_num)).1 (by norm_num)

/-- C1 counterexample: the claim promises output approximately 127-128 at
`v = C` for every width, but at `W = 2` the center value maps to 255, pure
white. -/
theorem C1_windowing_counterexample :
    windowByte 40 2 40 = 255 ∧ ¬(127 ≤ windowByte 40 2 40 ∧ windowByte 40 2 40 ≤ 128) := by
  have h : windowNorm 40 2 40 = 1 := by
    norm_num [windowNorm, npClip01]
  have hb : windowByte 40 2 40 = 255 := by
    rw [windowByte, h]
    simp
  exact ⟨hb, by omega⟩

/-- C5: the colored-blend crossfade multipliers: fixed stays 1 and moving is
`2*opacity` up to opacity 1/2, beyond it moving stays 1 and fixed is
`2*(1 - opacity)`; the moving multiplier is non-decreasing and the fixed
multiplier non-increasing in opacity, and both are 1 at opacity 1/2. -/
theorem C5_crossfade :
    (∀ b : ℚ, b ≤ 1/2 → crossfadeFixed b = 1 ∧ crossfadeMoving b = 2 * b) ∧
    (∀ b : ℚ, 1/2 < b → crossfadeMoving b = 1 ∧ crossfadeFixed b = 2 * (1 - b)) ∧
    (∀ a b : ℚ, a ≤ b →
      crossfadeMoving a ≤ crossfadeMoving b ∧ crossfadeFixed b ≤ crossfadeFixed a) ∧
    crossfadeFixed (1/2) = 1 ∧ crossfadeMoving (1/2) = 1 := by
  refine ⟨?_, ?_, ?_, ?_, ?_⟩
  · intro b hb
    exact ⟨by rw [crossfadeFixed, if_pos hb], by rw [crossfadeMoving, if_pos hb]⟩
  · intro b hb
    rw [crossfadeMoving, crossfadeFixed, if_neg (by linarith), if_neg (by linarith)]
    exact ⟨rfl, rfl⟩
  · intro a b hab
    constructor
    · rw [crossfadeMoving, crossfadeMoving]
      rcases le_or_lt a (1/2) with ha | ha <;> rcases le_or_lt b (1/2) with hb | hb
      · rw [if_pos ha, if_pos hb]; linarith
      · rw [if_pos ha, if_neg (by linarith)]; linarith
      · linarith
      · rw [if_neg (by linarith), if_neg (by linarith)]
    · rw [crossfadeFixed, crossfadeFixed]
      rcases le_or_lt a (1/2) with ha | ha <;> rcases le_or_lt b (1/2) with hb | hb
      · rw [if_pos ha, if_pos hb]
      · rw [if_pos ha, if_neg (by linarith)]; linarith
      · linarith
      · rw [if_neg (by linarith), if_neg (by linarith)]; linarith
  · norm_num [crossfadeFixed]
  · norm_num [crossfadeMoving]

/-- C5 witness: at opacity 1/4 the fixed multiplier is 1 and the moving
multiplier is 1/2. -/
theorem C5_crossfade_witness :
    crossfadeFixed (1/4) = 1 ∧ crossfadeMoving (1/4) = 2 * (1/4) :=
  C5_crossfade.1 (1/4) (by norm_num)

/-- C6: for each of the three orientations and any integer index, slice
extraction always succeeds; it serves the plane at the index clamped into
the valid absolute range of the sliced axis, so an out-of-range index yields
the nearest boundary slice and an in-range index yields its own slice. -/
theorem C6_extract_clamps (im : VtkImageData) (ori : String) (idx : ℤ)
    (c w : ℚ)
    (hori : ori = ORI_AXIAL ∨ ori = ORI_CORONAL ∨ ori = ORI_SAGITTAL)
    (hx : (im.extent 0).1 ≤ (im.extent 0).2)
    (hy : (im.extent 1).1 ≤ (im.extent 1).2)
    (hz : (im.extent 2).1 ≤ (im.extent 2).2) :
    (vtk_to_np_slice (some im) ori idx c w).isSome = true ∧
    vtk_to_np_slice (some im) ori idx c w
      = sliceAt im ori (clampInt idx (axisLo im ori) (axisHi im ori)) c w ∧
    axisLo im ori ≤ clampInt idx (axisLo im ori) (axisHi im ori) ∧
    clampInt idx (axisLo im ori) (axisHi im ori) ≤ axisHi im ori ∧
    (idx < axisLo im ori →
      clampInt idx (axisLo im ori) (axisHi im ori) = axisLo im ori) ∧
    (axisHi im ori < idx →
      clampInt idx (axisLo im ori) (axisHi im ori) = axisHi im ori) ∧
    (axisLo im ori ≤ idx → idx ≤ axisHi im ori →
      clampInt idx (axisLo im ori) (axisHi im ori) = idx) := by
  rcases hori with h | h | h <;> subst h
  · have hlo : axisLo im ORI_AXIAL = (im.extent 2).1 := rfl
    have hhi : axisHi im ORI_AXIAL = (im.extent 2).2 := rfl
    have hv : vtk_to_np_slice (some im) ORI_AXIAL idx c w
        = some (fun (i j : ℕ) => windowByte c w
            (im.scalar (npClipInt (idx - (im.extent 2).1) 0 (sizeZ im - 1))
              (i : ℤ) (j : ℤ))) := rfl
    have hs : ∀ k : ℤ, sliceAt im ORI_AXIAL k c w
        = some (fun (i j : ℕ) => windowByte c w
            (im.scalar (k - (im.extent 2).1) (i : ℤ) (j : ℤ))) := fun k => rfl
    have key : npClipInt (idx - (im.extent 2).1) 0 (sizeZ im - 1)
        = clampInt idx ((im.extent 2).1) ((im.extent 2).2) - (im.extent 2).1 := by
      simp only [npClipInt, clampInt, sizeZ]
      omega
    rw [hlo, hhi, hv, hs, key]
    refine ⟨rfl, rfl, ?_, ?_, ?_, ?_, ?_⟩ <;> simp only [clampInt] <;> omega
  · have hlo : axisLo im ORI_CORONAL = (im.extent 1).1 := rfl
    have hhi : axisHi im ORI_CORONAL = (im.extent 1).2 := rfl
    have hv : vtk_to_np_slice (some im) ORI_CORONAL idx c w
        = some (fun (i j : ℕ) => windowByte c w
            (im.scalar (i : ℤ)
              (npClipInt (idx - (im.extent 1).1) 0 (sizeY im - 1)) (j : ℤ))) := rfl
    have hs : ∀ k : ℤ, sliceAt im ORI_CORONAL k c w
        = some (fun (i j : ℕ) => windowByte c w
            (im.scalar (i : ℤ) (k - (im.extent 1).1) (j : ℤ))) := fun k => rfl
    have key : npClipInt (idx - (im.extent 1).1) 0 (sizeY im - 1)
        = clampInt idx ((im.extent 1).1) ((im.extent 1).2) - (im.extent 1).1 := by
      simp only [npClipInt, clampInt, sizeY]
      omega
    rw [hlo, hhi, hv, hs, key]
    refine ⟨rfl, rfl, ?_, ?_, ?_, ?_, ?_⟩ <;> simp only [clampInt] <;> omega
  · have hlo : axisLo im ORI_SAGITTAL = (im.extent 0).1 := rfl
    have hhi : axisHi im ORI_SAGITTAL = (im.extent 0).2 := rfl
    have hv : vtk_to_np_slice (some im) ORI_SAGITTAL idx c w
        = some (fun (i j : ℕ) => windowByte c w
            (im.scalar (i : ℤ) (j : ℤ)
              (npClipInt (idx - (im.extent 0).1) 0 (sizeX im - 1)))) := rfl
    have hs : ∀ k : ℤ, sliceAt im ORI_SAGITTAL k c w
        = some (fun (i j : ℕ) => windowByte c w
            (im.scalar (i : ℤ) (j : ℤ) (k - (im.extent 0).1))) := fun k => rfl
    have key : npClipInt (idx - (im.extent 0).1) 0 (sizeX im - 1)
        = clampInt idx ((im.extent 0).1) ((im.extent 0).2) - (im.extent 0).1 := by
      simp only [npClipInt, clampInt, sizeX]
      omega
    rw [hlo, hhi, hv, hs, key]
    refine ⟨rfl, rfl, ?_, ?_, ?_, ?_, ?_⟩ <;> simp only [clampInt] <;> omega

/-- C6 witness: on the 2x2x2 demo volume an axial request at index 99 still
produces a plane. -/
theorem C6_extract_clamps_witness :
    (vtk_to_np_slice (some demoImg) ORI_AXIAL 99 40 400).isSome = true :=
  (C6_extract_clamps demoImg ORI_AXIAL 99 40 400 (Or.inl rfl) (by decide)
    (by decide) (by decide)).1

/-- C2: the pre-registration transform of `load_moving`: its rotation block
is `transpose(R_fixed) * R_moving` of the column-normalized blocks, its
translation the raw origin difference; and for two identical voxel-to-world
matrices built from an orthonormal direction block `D` and positive spacing
`s`, the column norms are exactly `s` and the result is the identity
rotation with zero translation. -/
theorem C2_preregistration (norm3 : Vec3 → ℚ) (D : Mat3) (s o : Vec3)
    (img : VtkImageData)
    (hdir : img.direction = some D) (hspac : img.spacing = s)
    (horth : D.transpose * D = 1) (hpos : ∀ j, 0 < s j)
    (hn : ∀ j, norm3 (fun i => (compute_dicom_matrix img (some o)).R i j) = s j) :
    (∀ A B : Aff,
      (preRegTransform norm3 A B).R
        = (columnNormalize norm3 A.R).transpose * columnNormalize norm3 B.R ∧
      (preRegTransform norm3 A B).t = B.t - A.t) ∧
    (∀ j, ∑ i, ((compute_dicom_matrix img (some o)).R i j) ^ 2 = s j ^ 2) ∧
    (preRegTransform norm3 (compute_dicom_matrix img (some o))
        (compute_dicom_matrix img (some o))).R = 1 ∧
    (preRegTransform norm3 (compute_dicom_matrix img (some o))
        (compute_dicom_matrix img (some o))).t = 0 := by
  have hM : (compute_dicom_matrix img (some o)).R = fun i j => D i j * s j := by
    simp [compute_dicom_matrix, hdir, hspac]
  have hnormed : columnNormalize norm3 (compute_dicom_matrix img (some o)).R = D := by
    ext i j
    simp only [columnNormalize]
    rw [hn j]
    simp only [hM]
    rw [mul_div_assoc, div_self (hpos j).ne', mul_one]
  refine ⟨fun A B => ⟨rfl, rfl⟩, ?_, ?_, ?_⟩
  · intro j
    have h1 : (D.transpose * D) j j = 1 := by rw [horth]; simp [Matrix.one_apply]
    rw [Matrix.mul_apply] at h1
    simp only [Matrix.transpose_apply] at h1
    simp only [hM]
    calc (∑ i, (D i j * s j) ^ 2) = (∑ i, D i j * D i j) * s j ^ 2 := by
          rw [Finset.sum_mul]
          congr 1
          ext i
          ring
      _ = s j ^ 2 := by rw [h1, one_mul]
  · show (columnNormalize norm3 _).transpose * columnNormalize norm3 _ = 1
    rw [hnormed, horth]
  · exact sub_self _

/-- C2 witness: identity direction, unit spacing, zero origin: the
pre-registration rotation block is the identity. -/
theorem C2_preregistration_witness :
    (preRegTransform (fun _ => 1) (compute_dicom_matrix demoImg (some 0))
      (compute_dicom_matrix demoImg (some 0))).R = 1 :=
  (C2_preregistration (fun _ => 1) 1 (fun _ => 1) 0 demoImg rfl rfl
    (by simp) (fun j => by norm_num) (fun j => rfl)).2.2.1

/-- C9 counterexample: slice extraction takes no window parameters: on a
single-voxel fixed volume of raw value 500 it returns the built-in
`C=40, W=400` windowing of 500, which is 255; had the caller been able to
supply, say, `C=500, W=2000`, the voxel would map to 127 instead. -/
theorem C9_window_args_counterexample :
    ((get_slice_numpy demoFixed500 ORI_AXIAL 0).1.map fun p => p 0 0)
      = some (windowByte 40 400 500) ∧
    windowByte 40 400 500 = 255 ∧ windowByte 500 2000 500 = 127 := by
  refine ⟨rfl, ?_, ?_⟩
  · have h : windowNorm 40 400 500 = 1 := by
      rw [windowNorm, npClip01]
      rw [min_eq_left (by norm_num), max_eq_right (by norm_num)]
    rw [windowByte, h]
    simp
  · have h : windowNorm 500 2000 500 = 1000 / 1999 := by
      rw [windowNorm, npClip01]
      rw [min_eq_right (by norm_num), max_eq_right (by norm_num)]
      norm_num
    have h2 : (⌊windowNorm 500 2000 500 * 255⌋ : ℤ) = 127 := by
      rw [h, Int.floor_eq_iff]
      norm_num
    rw [windowByte, h2]
    rfl

/-- C9 (amended): `get_slice_numpy` takes only an orientation and a slice
index; both the fixed and the moving plane are windowed with the built-in
defaults `window_center = 40, window_width = 400` of `vtk_to_np_slice`. -/
theorem C9_builtin_window (st : EngineState) (fimg : VtkImageData)
    (ori : String) (idx : ℤ) (hf : st.fixed_reader = some fimg) :
    (get_slice_numpy st ori idx).1 = vtk_to_np_slice (some fimg) ori idx 40 400 ∧
    (get_slice_numpy st ori idx).2 =
      (match (if st.moving_reader.isSome then st.resliceOutput else none) with
       | some m => vtk_to_np_slice (some m) ori idx 40 400
       | none => none) := by
  rw [get_slice_numpy, hf]
  exact ⟨rfl, rfl⟩

/-- C9 witness: the amended statement on the concrete single-voxel engine. -/
theorem C9_builtin_window_witness :
    (get_slice_numpy demoFixed500 ORI_AXIAL 3).1
      = vtk_to_np_slice (some demoImg500) ORI_AXIAL 3 40 400 :=
  (C9_builtin_window demoFixed500 demoImg500 ORI_AXIAL 3 rfl).1

/-! ### Transform state-machine lemmas -/

theorem applyTransform_of_both (cosd sind : ℚ → ℚ) (st : EngineState)
    (fimg mimg : VtkImageData) (hf : st.fixed_reader = some fimg)
    (hm : st.moving_reader = some mimg) :
    applyTransform cosd sind st =
      { st with
        user_transform := userTransformOf cosd sind st (centerWorld fimg)
        transform := vtkPost (userTransformOf cosd sind st (centerWorld fimg))
          (vtkPost st.pre_transform Aff.id)
        resliceAxes := vtkPost (userTransformOf cosd sind st (centerWorld fimg))
          (vtkPost st.pre_transform Aff.id)
        blend_dirty := true } := by
  simp only [applyTransform, hf, hm]

theorem applyTransform_fixed_reader (cosd sind : ℚ → ℚ) (st : EngineState) :
    (applyTransform cosd sind st).fixed_reader = st.fixed_reader := by
  rcases hf : st.fixed_reader with _ | f <;> rcases hm : st.moving_reader with _ | m <;>
    simp [applyTransform, hf, hm]

theorem applyTransform_moving_reader (cosd sind : ℚ → ℚ) (st : EngineState) :
    (applyTransform cosd sind st).moving_reader = st.moving_reader := by
  rcases hf : st.fixed_reader with _ | f <;> rcases hm : st.moving_reader with _ | m <;>
    simp [applyTransform, hf, hm]

theorem applyTransform_params (cosd sind : ℚ → ℚ) (st : EngineState) :
    paramsOf (applyTransform cosd sind st) = paramsOf st := by
  rcases hf : st.fixed_reader with _ | f <;> rcases hm : st.moving_reader with _ | m <;>
    simp [applyTransform, hf, hm, paramsOf]

theorem applyTransform_dirty_mono (cosd sind : ℚ → ℚ) (st : EngineState)
    (h : st.blend_dirty = true) :
    (applyTransform cosd sind st).blend_dirty = true := by
  rcases hf : st.fixed_reader with _ | f <;> rcases hm : st.moving_reader with _ | m <;>
    simp [applyTransform, hf, hm, h]

theorem userTransformOf_eq_spec (cosd sind : ℚ → ℚ) (st : EngineState)
    (center : Vec3) :
    userTransformOf cosd sind st center
      = specUserMatrix cosd sind (paramsOf st) center := by
  simp only [userTransformOf, vtkPost, specUserMatrix, paramsOf, Aff.comp_id,
    Aff.comp_assoc]

theorem runOp_fixed_reader (cosd sind : ℚ → ℚ) (st : EngineState) (op : UserOp) :
    (runOp cosd sind st op).fixed_reader = st.fixed_reader := by
  cases op <;>
    simp [runOp, set_translation, set_rotation_deg, applyTransform_fixed_reader]

theorem runOp_moving_reader (cosd sind : ℚ → ℚ) (st : EngineState) (op : UserOp) :
    (runOp cosd sind st op).moving_reader = st.moving_reader := by
  cases op <;>
    simp [runOp, set_translation, set_rotation_deg, applyTransform_moving_reader]

theorem runOp_params (cosd sind : ℚ → ℚ) (st : EngineState) (op : UserOp) :
    paramsOf (runOp cosd sind st op) = opStep (paramsOf st) op := by
  cases op with
  | setT a b c =>
    rw [show runOp cosd sind st (UserOp.setT a b c)
        = set_translation cosd sind a b c st from rfl, set_translation,
      applyTransform_params]
    rfl
  | setR a b c =>
    rw [show runOp cosd sind st (UserOp.setR a b c)
        = set_rotation_deg cosd sind a b c st from rfl, set_rotation_deg,
      applyTransform_params]
    rfl

theorem runOp_user (cosd sind : ℚ → ℚ) (st : EngineState) (op : UserOp)
    (fimg : VtkImageData) (hf : st.fixed_reader = some fimg)
    (hm : st.moving_reader.isSome = true) :
    (runOp cosd sind st op).user_transform
      = specUserMatrix cosd sind (paramsOf (runOp cosd sind st op))
          (centerWorld fimg) := by
  obtain ⟨mimg, hm'⟩ := Option.isSome_iff_exists.mp hm
  cases op with
  | setT a b c =>
    rw [show runOp cosd sind st (UserOp.setT a b c)
        = set_translation cosd sind a b c st from rfl, set_translation,
      applyTransform_of_both cosd sind { st with tx := a, ty := b, tz := c }
        fimg mimg hf hm',
      userTransformOf_eq_spec]
    rfl
  | setR a b c =>
    rw [show runOp cosd sind st (UserOp.setR a b c)
        = set_rotation_deg cosd sind a b c st from rfl, set_rotation_deg,
      applyTransform_of_both cosd sind { st with rx := a, ry := b, rz := c }
        fimg mimg hf hm',
      userTransformOf_eq_spec]
    rfl

theorem paramsOf_runOps (cosd sind : ℚ → ℚ) (st : EngineState)
    (ops : List UserOp) :
    paramsOf (runOps cosd sind st ops) = finalParams (paramsOf st) ops := by
  induction ops generalizing st with
  | nil => rfl
  | cons op ops ih =>
    rw [show runOps cosd sind st (op :: ops)
        = runOps cosd sind (runOp cosd sind st op) ops from rfl,
      show finalParams (paramsOf st) (op :: ops)
        = finalParams (opStep (paramsOf st) op) ops from rfl,
      ih, runOp_params]

theorem runOps_user (cosd sind : ℚ → ℚ) (st : EngineState)
    (fimg : VtkImageData) (ops : List UserOp)
    (hf : st.fixed_reader = some fimg) (hm : st.moving_reader.isSome = true)
    (hne : ops ≠ []) :
    (runOps cosd sind st ops).user_transform
      = specUserMatrix cosd sind (paramsOf (runOps cosd sind st ops))
          (centerWorld fimg) := by
  induction ops generalizing st with
  | nil => exact absurd rfl hne
  | cons op ops ih =>
    rw [show runOps cosd sind st (op :: ops)
        = runOps cosd sind (runOp cosd sind st op) ops from rfl]
    rcases ops with _ | ⟨op2, ops2⟩
    · exact runOp_user cosd sind st op fimg hf hm
    · exact ih (runOp cosd sind st op)
        (by rw [runOp_fixed_reader]; exact hf)
        (by rw [runOp_moving_reader]; exact hm)
        (by simp)

/-- C3: with both volumes loaded, after any non-empty sequence of
`set_rotation_deg`/`set_translation` calls the exposed `user_transform` is
exactly translate(-center), rotate X, rotate Y, rotate Z, translate(center),
translate(tx,ty,tz) applied in that order, for the latest stored parameters,
about the fixed volume's physical center; and it is identical for every
value of the pre-registration transform. -/
theorem C3_user_transform (cosd sind : ℚ → ℚ) (st : EngineState)
    (fimg : VtkImageData) (ops : List UserOp)
    (hf : st.fixed_reader = some fimg) (hm : st.moving_reader.isSome = true)
    (hne : ops ≠ []) :
    (runOps cosd sind st ops).user_transform
      = specUserMatrix cosd sind (finalParams (paramsOf st) ops)
          (centerWorld fimg) ∧
    ∀ P : Aff,
      (runOps cosd sind { st with pre_transform := P } ops).user_transform
        = specUserMatrix cosd sind (finalParams (paramsOf st) ops)
            (centerWorld fimg) := by
  constructor
  · rw [runOps_user cosd sind st fimg ops hf hm hne, paramsOf_runOps]
  · intro P
    rw [runOps_user cosd sind { st with pre_transform := P } fimg ops hf hm hne,
      paramsOf_runOps]
    rfl

/-- C3 witness: one concrete translation call on the demo engine. -/
theorem C3_user_transform_witness :
    (runOps cosd0 sind0 demoBoth [UserOp.setT 1 2 3]).user_transform
      = specUserMatrix cosd0 sind0
          (finalParams (paramsOf demoBoth) [UserOp.setT 1 2 3])
          (centerWorld demoImg) :=
  (C3_user_transform cosd0 sind0 demoBoth demoImg [UserOp.setT 1 2 3] rfl rfl
    (by simp)).1

/-- C4: with both volumes loaded, `reset_transform` zeroes all six user
parameters, the user transform becomes the identity, the composed reslice
transform (and the reslice axes) equal the pre-registration transform alone,
and the pre-registration transform itself is untouched. Needs `cos 0 = 1`
and `sin 0 = 0` of the trigonometric tables. -/
theorem C4_reset (cosd sind : ℚ → ℚ) (st : EngineState) (fimg : VtkImageData)
    (hcos : cosd 0 = 1) (hsin : sind 0 = 0)
    (hf : st.fixed_reader = some fimg) (hm : st.moving_reader.isSome = true) :
    (reset_transform cosd sind st).tx = 0 ∧
    (reset_transform cosd sind st).ty = 0 ∧
    (reset_transform cosd sind st).tz = 0 ∧
    (reset_transform cosd sind st).rx = 0 ∧
    (reset_transform cosd sind st).ry = 0 ∧
    (reset_transform cosd sind st).rz = 0 ∧
    (reset_transform cosd sind st).user_transform = Aff.id ∧
    (reset_transform cosd sind st).transform = st.pre_transform ∧
    (reset_transform cosd sind st).resliceAxes = st.pre_transform ∧
    (reset_transform cosd sind st).pre_transform = st.pre_transform ∧
    (reset_transform cosd sind st).blend_dirty = true := by
  obtain ⟨mimg, hm'⟩ := Option.isSome_iff_exists.mp hm
  have huser : userTransformOf cosd sind
      { st with
        tx := 0, ty := 0, tz := 0, rx := 0, ry := 0, rz := 0
        transform := Aff.id
        blend_dirty := true } (centerWorld fimg) = Aff.id := by
    rw [userTransformOf_eq_spec]
    simp only [specUserMatrix, paramsOf]
    rw [hcos, hsin, rotX_id, rotY_id, rotZ_id,
      show (![(0:ℚ), 0, 0] : Vec3) = 0 from by funext i; fin_cases i <;> rfl,
      translateA_zero]
    simp [Aff.comp_id, Aff.id_comp, translateA_comp, translateA_zero]
  rw [reset_transform,
    applyTransform_of_both cosd sind
      { st with
        tx := 0, ty := 0, tz := 0, rx := 0, ry := 0, rz := 0
        transform := Aff.id
        blend_dirty := true } fimg mimg hf hm', huser]
  refine ⟨rfl, rfl, rfl, rfl, rfl, rfl, rfl, ?_, ?_, rfl, rfl⟩ <;>
    simp [vtkPost, Aff.id_comp, Aff.comp_id]

/-- C4 witness: on the demo engine with the degenerate trigonometric tables,
reset leaves the composed transform equal to the pre-registration
transform. -/
theorem C4_reset_witness :
    (reset_transform cosd0 sind0 demoBoth).transform = demoBoth.pre_transform :=
  (C4_reset cosd0 sind0 demoBoth demoImg rfl rfl rfl rfl).2.2.2.2.2.2.2.1

/-- C7: on a directory with no files (the enumeration has no is-file entry),
both loads return false and the entire engine state is returned unchanged,
every field included. -/
theorem C7_load_guard (ipp : String → Vec3) (norm3 : Vec3 → ℚ) (d : DirListing)
    (rimg : VtkImageData) (resliceOut : Option VtkImageData) (st : EngineState)
    (h : hasAnyFile d = false) :
    load_fixed ipp d rimg st = (false, st) ∧
    load_moving norm3 ipp d rimg resliceOut st = (false, st) := by
  rw [load_fixed, load_moving, if_pos h, if_pos h]
  exact ⟨rfl, rfl⟩

/-- C7 witness: a directory whose only entry is a subdirectory. -/
theorem C7_load_guard_witness :
    load_fixed demoIpp demoEmptyDir demoImg initState = (false, initState) :=
  (C7_load_guard demoIpp (fun _ => 1) demoEmptyDir demoImg none initState rfl).1

/-- C8 counterexample: with only the fixed volume loaded and a clean dirty
flag, `set_translation` mutates the stored translation (tx becomes 1) yet
leaves the blend-dirty flag false, because `_apply_transform` returns early
when the moving volume is missing. -/
theorem C8_dirty_counterexample :
    (set_translation cosd0 sind0 1 0 0 demoFixedOnly).blend_dirty = false ∧
    (set_translation cosd0 sind0 1 0 0 demoFixedOnly).tx = 1 :=
  ⟨rfl, rfl⟩

/-- C8 (amended): when both volumes are loaded, `set_translation` and
`set_rotation_deg` set the blend-dirty flag; `reset_transform` sets it in
every engine state (it raises the flag before delegating); without a moving
volume the two setters store parameters but do not touch the flag. -/
theorem C8_dirty (cosd sind : ℚ → ℚ) (a b c : ℚ) (st : EngineState)
    (hf : st.fixed_reader.isSome = true) (hm : st.moving_reader.isSome = true) :
    (set_translation cosd sind a b c st).blend_dirty = true ∧
    (set_rotation_deg cosd sind a b c st).blend_dirty = true ∧
    ∀ st2 : EngineState, (reset_transform cosd sind st2).blend_dirty = true := by
  obtain ⟨fimg, hf'⟩ := Option.isSome_iff_exists.mp hf
  obtain ⟨mimg, hm'⟩ := Option.isSome_iff_exists.mp hm
  refine ⟨?_, ?_, ?_⟩
  · rw [set_translation,
      applyTransform_of_both cosd sind { st with tx := a, ty := b, tz := c }
        fimg mimg hf' hm']
  · rw [set_rotation_deg,
      applyTransform_of_both cosd sind { st with rx := a, ry := b, rz := c }
        fimg mimg hf' hm']
  · intro st2
    rw [reset_transform]
    exact applyTransform_dirty_mono cosd sind _ rfl

/-- C8 witness: the amended statement on the demo engine with both volumes
loaded. -/
theorem C8_dirty_witness :
    (set_translation cosd0 sind0 4 5 6 demoBoth).blend_dirty = true :=
  (C8_dirty cosd0 sind0 4 5 6 demoBoth rfl rfl).1

/-- C10: when the directory has at least one file but no entry named
`*.dcm` (case-insensitively), loading still succeeds, and the first-slice
origin override falls back to the zero vector, which becomes the translation
column of the fixed voxel-to-world matrix. -/
theorem C10_no_dcm (ipp : String → Vec3) (d : DirListing) (rimg : VtkImageData)
    (st : EngineState)
    (hfile : hasAnyFile d = true)
    (hdcm : ∀ e ∈ d.entries, endsWithDcm e.name = false) :
    (load_fixed ipp d rimg st).1 = true ∧
    get_first_slice_ipp d ipp = 0 ∧
    ((load_fixed ipp d rimg st).2.fixed_matrix).t = 0 := by
  have hnames : ((d.entries.map fun e => e.name).filter fun n => endsWithDcm n) = [] := by
    rw [List.filter_eq_nil_iff]
    intro a ha
    obtain ⟨e, he, rfl⟩ := List.mem_map.mp ha
    simp [hdcm e he]
  have hdn : dcmNames d = [] := by
    rw [dcmNames, hnames]
    simp
  have hipp : get_first_slice_ipp d ipp = 0 := by
    rw [get_first_slice_ipp, hdn]
  refine ⟨?_, hipp, ?_⟩
  · rw [load_fixed, if_neg (by simp [hfile])]
  · rw [load_fixed, if_neg (by simp [hfile])]
    dsimp only
    rcases hmin : (scalarList (imageFlipY rimg)).min? with _ | m <;>
      simp only [hmin, hipp] <;> rfl

/-- C10 witness: a directory containing the single file `notes.txt`. -/
theorem C10_no_dcm_witness :
    ((load_fixed demoIpp demoDirNoDcm demoImg initState).2.fixed_matrix).t = 0 :=
  (C10_no_dcm demoIpp demoDirNoDcm demoImg initState rfl (by decide)).2.2

end OnkoDicom
